import Mathlib

/-!
Verification development for the CPU architecture simulator.

The repository ships a React frontend (`frontend/src/...`) and, per its
Dockerfile, a Python/Flask backend implementing the analytical simulation
engine.  The backend sources are not part of the available tree, so the
engine (ConfigValidator, CacheModel, MemoryModel, BranchPredictorModel,
CoreIPCModel, PowerEnergyModel, AggregateIndexCalculator, SimulationEngine)
is modelled here from the specification's formulas (spec sections 4.1-4.8),
while the frontend components (`SimulatorPage.handleSimulate`,
`CPUVisualization`) are embedded directly from the JSX sources.

Real-valued engine formulas use `Real.log` / `Real.exp`, hence those
definitions are noncomputable; the validator and all rational/integer
quantities are computable.
-/

namespace CPUSim

/-- Modelled from the spec: the branch-predictor enum (`static | bimodal |
tournament`), spec section 3; the backend implementing it is not in the
available sources.  The frontend `ConfigForm.jsx` exposes exactly these
three option values. -/
inductive BranchPredictor where
  | static : BranchPredictor
  | bimodal : BranchPredictor
  | tournament : BranchPredictor
deriving DecidableEq

/-- Modelled from the spec: the `Configuration` value object of spec
section 3 (the backend holding it is not in the available sources).
Positive-integer fields are `Nat`, positive-real fields are `Rat`
(slider values are decimal); field names follow `defaultConfig` in
`frontend/src/pages/SimulatorPage.jsx`. -/
structure Config where
  cache_size_kb : ℕ
  cache_block_size_b : ℕ
  cache_associativity : ℕ
  mem_size_gb : ℚ
  mem_bandwidth_gbs : ℚ
  mem_latency_ns : ℚ
  reg_count : ℕ
  reg_width_bits : ℕ
  bus_width_bits : ℕ
  bus_freq_ghz : ℚ
  clock_freq_ghz : ℚ
  pipeline_depth : ℕ
  issue_width : ℕ
  alu_width_bits : ℕ
  branch_predictor : BranchPredictor
deriving DecidableEq

/-- Modelled from the spec: the error taxonomy of spec section 7
(`OutOfRange(field, min, max)`, `InvalidEnum(field, allowed)`,
`InconsistentGeometry(field, reason)`); the backend validator is not in
the available sources. -/
inductive ValidationError where
  | OutOfRange (field : String) (lo hi : ℚ) : ValidationError
  | InvalidEnum (field : String) : ValidationError
  | InconsistentGeometry (field : String) (reason : String) : ValidationError
deriving DecidableEq

/-- Range check for a natural-valued field: emits `OutOfRange` when the
value falls outside the inclusive `[lo, hi]` UI bounds. -/
def rangeCheckN (field : String) (lo hi v : ℕ) : List ValidationError :=
  if v < lo ∨ hi < v then [ValidationError.OutOfRange field lo hi] else []

/-- Range check for a rational-valued field. -/
def rangeCheckQ (field : String) (lo hi v : ℚ) : List ValidationError :=
  if v < lo ∨ hi < v then [ValidationError.OutOfRange field lo hi] else []

/-- Modelled from the spec: `sets = floor(cache_size_kb*1024 /
(cache_block_size_b * cache_associativity))`, spec section 4.2. -/
def cacheSets (c : Config) : ℕ :=
  c.cache_size_kb * 1024 / (c.cache_block_size_b * c.cache_associativity)

/-- Modelled from the spec: the derived-sets invariant of spec sections 3
and 4.1 — the number of cache sets must be at least 1, otherwise an
`InconsistentGeometry` error on `cache_associativity` is emitted. -/
def geometryCheck (c : Config) : List ValidationError :=
  if cacheSets c < 1 then
    [ValidationError.InconsistentGeometry "cache_associativity"
      "fewer than one cache set"]
  else []

/-- Modelled from the spec: ConfigValidator (spec section 4.1; the backend
is not in the available sources).  Batch validation: every field is
checked against the UI bounds exposed by `frontend/src/components/
ConfigForm.jsx`, and all errors found in the pass are returned together
with the derived-sets geometry check. -/
def validate (c : Config) : List ValidationError :=
  rangeCheckN "cache_size_kb" 8 1024 c.cache_size_kb ++
  rangeCheckN "cache_block_size_b" 16 256 c.cache_block_size_b ++
  rangeCheckN "cache_associativity" 1 16 c.cache_associativity ++
  rangeCheckQ "mem_size_gb" 1 128 c.mem_size_gb ++
  rangeCheckQ "mem_bandwidth_gbs" 5 200 c.mem_bandwidth_gbs ++
  rangeCheckQ "mem_latency_ns" 30 200 c.mem_latency_ns ++
  rangeCheckN "reg_count" 8 256 c.reg_count ++
  rangeCheckN "reg_width_bits" 8 512 c.reg_width_bits ++
  rangeCheckN "bus_width_bits" 8 512 c.bus_width_bits ++
  rangeCheckQ "bus_freq_ghz" (1/2) 5 c.bus_freq_ghz ++
  rangeCheckQ "clock_freq_ghz" (1/2) 6 c.clock_freq_ghz ++
  rangeCheckN "pipeline_depth" 5 40 c.pipeline_depth ++
  rangeCheckN "issue_width" 1 8 c.issue_width ++
  rangeCheckN "alu_width_bits" 8 512 c.alu_width_bits ++
  geometryCheck c

/-- The `clamp(x, lo, hi)` operation as used throughout spec section 4. -/
noncomputable def clampR (x lo hi : ℝ) : ℝ := max lo (min hi x)

/-- Modelled from the spec: CacheModel hit rate, spec section 4.2:
`clamp(0.5 + 0.04*ln(cache_size_kb) + 0.02*min(assoc, 8)
 - 0.01*ln(block/64 + 1), 0.10, 0.995)`. -/
noncomputable def cacheHitRate (c : Config) : ℝ :=
  clampR (0.5 + 0.04 * Real.log (c.cache_size_kb : ℝ)
      + 0.02 * min (c.cache_associativity : ℝ) 8
      - 0.01 * Real.log ((c.cache_block_size_b : ℝ) / 64 + 1)) 0.10 0.995

/-- Modelled from the spec: `miss_rate = 1 - hit_rate`, spec section 4.2. -/
noncomputable def cacheMissRate (c : Config) : ℝ := 1 - cacheHitRate c

/-- Modelled from the spec: `cache_hit_time_ns = 0.5 + 0.15*log2(size)
 + 0.05*assoc`, spec section 4.2. -/
noncomputable def cacheHitTime (c : Config) : ℝ :=
  0.5 + 0.15 * Real.logb 2 (c.cache_size_kb : ℝ)
    + 0.05 * (c.cache_associativity : ℝ)

/-- Modelled from the spec: MemoryModel effective latency, spec section
4.3: `max(mem_latency_ns*0.2, mem_latency_ns / (1 + mem_bandwidth_gbs/50))`
(rational arithmetic, hence computable). -/
def effectiveLatency (c : Config) : ℚ :=
  max (c.mem_latency_ns * (1/5))
    (c.mem_latency_ns / (1 + c.mem_bandwidth_gbs / 50))

/-- Modelled from the spec: `amat_ns = cache_hit_time_ns + miss_rate *
effective_latency_ns`, spec section 4.3. -/
noncomputable def amat (c : Config) : ℝ :=
  cacheHitTime c + cacheMissRate c * (effectiveLatency c : ℝ)

/-- Modelled from the spec: base mispredict rate by strategy (tagged
variant dispatch), spec section 4.4: `static→0.35, bimodal→0.12,
tournament→0.06`. -/
def mispredictRate : BranchPredictor → ℚ
  | BranchPredictor.static => 7/20
  | BranchPredictor.bimodal => 3/25
  | BranchPredictor.tournament => 3/50

/-- Reference workload size `N = 1,000,000` instructions (engine-wide
constant, spec section 4.4). -/
def workloadN : ℕ := 1000000

/-- Branch density `d = 0.2` (engine-wide constant, spec section 4.4). -/
def branchDensity : ℚ := 1/5

/-- Modelled from the spec: `branch_total_branches = round(N * d)`,
spec section 4.4. -/
def branchTotalBranches : ℤ := round ((workloadN : ℚ) * branchDensity)

/-- Modelled from the spec: `branch_mispredict_count =
round(branch_total_branches * mispredict_rate)`, spec section 4.4. -/
def branchMispredictCount (c : Config) : ℤ :=
  round ((branchTotalBranches : ℚ) * mispredictRate c.branch_predictor)

/-- Modelled from the spec: `misprediction_penalty_cycles =
pipeline_depth / 2`, spec section 4.4. -/
def mispredictPenalty (c : Config) : ℚ := (c.pipeline_depth : ℚ) / 2

/-- Modelled from the spec: `branch_stall_cycles = branch_mispredict_count
 * misprediction_penalty_cycles`, spec section 4.4. -/
def branchStallCycles (c : Config) : ℚ :=
  (branchMispredictCount c : ℚ) * mispredictPenalty c

/-- Modelled from the spec: `reg_factor = 1 - exp(-reg_count/64)`,
spec section 4.5. -/
noncomputable def regFactor (c : Config) : ℝ :=
  1 - Real.exp (-(c.reg_count : ℝ) / 64)

/-- Modelled from the spec: `ipc_before = clamp(issue_width * reg_factor,
0.1, issue_width)`, spec section 4.5. -/
noncomputable def ipcBefore (c : Config) : ℝ :=
  clampR ((c.issue_width : ℝ) * regFactor c) 0.1 (c.issue_width : ℝ)

/-- Modelled from the spec: `ipc_after = ipc_before /
(1 + branch_stall_cycles / N)`, spec section 4.5. -/
noncomputable def ipcAfter (c : Config) : ℝ :=
  ipcBefore c / (1 + (branchStallCycles c : ℝ) / (workloadN : ℝ))

/-- Modelled from the spec: `ipc_loss_percent = (ipc_before - ipc_after)
 / ipc_before * 100`, spec section 4.5. -/
noncomputable def ipcLossPercent (c : Config) : ℝ :=
  (ipcBefore c - ipcAfter c) / ipcBefore c * 100

/-- Modelled from the spec: PowerEnergyModel `power_index` (spec section
4.6) — a weighted normalized sum of clock, bus width, ALU width, register
width and cache size, each divided by its maximum slider value (6 GHz,
512, 512, 512 bits, 1024 KB per `ConfigForm.jsx`), with equal weights
`1/5` summing to 1 (the spec leaves the exact weights as design constants;
equal weights satisfy the documented constraints).  Rational, hence
computable. -/
def powerIndex (c : Config) : ℚ :=
  (1/5) * (c.clock_freq_ghz / 6) + (1/5) * ((c.bus_width_bits : ℚ) / 512)
    + (1/5) * ((c.alu_width_bits : ℚ) / 512)
    + (1/5) * ((c.reg_width_bits : ℚ) / 512)
    + (1/5) * ((c.cache_size_kb : ℚ) / 1024)

/-- Modelled from the spec: fixed design constant `base_power_w > 0`,
spec section 4.6 (exact value unspecified; 10 W chosen). -/
def basePowerW : ℚ := 10

/-- Modelled from the spec: fixed design constant `k_power > 0`,
spec section 4.6 (exact value unspecified; 50 chosen). -/
def kPower : ℚ := 50

/-- Modelled from the spec: `average_power_consumption = base_power_w +
k_power * power_index`, spec section 4.6. -/
def averagePower (c : Config) : ℚ := basePowerW + kPower * powerIndex c

/-- Modelled from the spec: `execution_time_s = N / (ipc_after *
clock_freq_ghz * 1e9)`, spec section 4.6. -/
noncomputable def executionTime (c : Config) : ℝ :=
  (workloadN : ℝ) / (ipcAfter c * (c.clock_freq_ghz : ℝ) * 1000000000)

/-- Modelled from the spec: `total_energy_consumption =
average_power_consumption * execution_time_s`, spec section 4.6. -/
noncomputable def totalEnergy (c : Config) : ℝ :=
  (averagePower c : ℝ) * executionTime c

/-- Modelled from the spec: fixed constant `access_density = 0.3`,
spec section 4.6. -/
def accessDensity : ℚ := 3/10

/-- Modelled from the spec: `total_memory_accesses = N * access_density`,
spec section 4.6. -/
def totalMemoryAccesses : ℚ := (workloadN : ℚ) * accessDensity

/-- Modelled from the spec: `energy_per_access = total_energy /
total_memory_accesses`, spec section 4.6. -/
noncomputable def energyPerAccess (c : Config) : ℝ :=
  totalEnergy c / (totalMemoryAccesses : ℝ)

/-- Modelled from the spec: fixed constant `die_area_cm2`, spec section
4.6 (exact value unspecified; 1 cm2 chosen). -/
def dieAreaCm2 : ℚ := 1

/-- Modelled from the spec: `power_density = average_power_consumption /
die_area_cm2`, spec section 4.6. -/
def powerDensity (c : Config) : ℚ := averagePower c / dieAreaCm2

/-- The baseline configuration: the UI default values from
`frontend/src/pages/SimulatorPage.jsx` (`defaultConfig`). -/
def baselineConfig : Config where
  cache_size_kb := 32
  cache_block_size_b := 64
  cache_associativity := 4
  mem_size_gb := 8
  mem_bandwidth_gbs := 25
  mem_latency_ns := 80
  reg_count := 32
  reg_width_bits := 64
  bus_width_bits := 64
  bus_freq_ghz := 12/5
  clock_freq_ghz := 3
  pipeline_depth := 14
  issue_width := 4
  alu_width_bits := 64
  branch_predictor := BranchPredictor.bimodal

/-- A raw configuration with inconsistent cache geometry: a 1 KB cache
with 64-byte blocks and 32-way associativity has
`1*1024 < 64*32` bytes, i.e. fewer than one set. -/
def badGeometryConfig : Config :=
  { baselineConfig with cache_size_kb := 1, cache_associativity := 32 }

/-- Modelled from the spec: `baseline_ipc_after` — the baseline
configuration evaluated once at engine initialization, spec section 4.7. -/
noncomputable def baselineIpcAfter : ℝ := ipcAfter baselineConfig

/-- Modelled from the spec: `baseline_clock`, spec section 4.7. -/
def baselineClock : ℚ := 3

/-- Modelled from the spec: `performance_index = (ipc_after *
clock_freq_ghz) / (baseline_ipc_after * baseline_clock)`,
spec section 4.7. -/
noncomputable def performanceIndex (c : Config) : ℝ :=
  (ipcAfter c * (c.clock_freq_ghz : ℝ)) / (baselineIpcAfter * (baselineClock : ℝ))

/-- Modelled from the spec: `efficiency_index = performance_index /
power_index`, spec section 4.7. -/
noncomputable def efficiencyIndex (c : Config) : ℝ :=
  performanceIndex c / (powerIndex c : ℝ)

/-- Modelled from the spec: the `SimulationResult` record with exactly the
fields listed in spec section 6. -/
structure SimulationResult where
  cache_hit_rate : ℝ
  cache_miss_rate : ℝ
  cache_hit_time_ns : ℝ
  amat_ns : ℝ
  branch_mispredict_rate : ℝ
  performance_index : ℝ
  power_index : ℝ
  efficiency_index : ℝ
  ipc_index : ℝ
  total_energy_consumption : ℝ
  average_power_consumption : ℝ
  energy_per_access : ℝ
  power_density : ℝ
  branch_total_branches : ℝ
  branch_mispredict_count : ℝ
  branch_stall_cycles : ℝ
  branch_ipc_before : ℝ
  branch_ipc_after : ℝ
  branch_ipc_loss_percent : ℝ
  branch_predictor_efficiency : ℝ

/-- Modelled from the spec: the arithmetic stage of the engine assembling
the full `SimulationResult` from sections 4.2-4.7 (reached only after
validation passes). -/
noncomputable def computeResult (c : Config) : SimulationResult where
  cache_hit_rate := cacheHitRate c
  cache_miss_rate := cacheMissRate c
  cache_hit_time_ns := cacheHitTime c
  amat_ns := amat c
  branch_mispredict_rate := (mispredictRate c.branch_predictor : ℝ)
  performance_index := performanceIndex c
  power_index := (powerIndex c : ℝ)
  efficiency_index := efficiencyIndex c
  ipc_index := ipcAfter c
  total_energy_consumption := totalEnergy c
  average_power_consumption := (averagePower c : ℝ)
  energy_per_access := energyPerAccess c
  power_density := (powerDensity c : ℝ)
  branch_total_branches := (branchTotalBranches : ℝ)
  branch_mispredict_count := (branchMispredictCount c : ℝ)
  branch_stall_cycles := (branchStallCycles c : ℝ)
  branch_ipc_before := ipcBefore c
  branch_ipc_after := ipcAfter c
  branch_ipc_loss_percent := ipcLossPercent c
  branch_predictor_efficiency := ((1 - mispredictRate c.branch_predictor : ℚ) : ℝ)

/-- Modelled from the spec: `SimulationEngine.run`, spec section 4.8 —
on validation failure returns the validation errors without invoking any
model; on success invokes the models and assembles the result. -/
noncomputable def run (c : Config) : Except (List ValidationError) SimulationResult :=
  if validate c = [] then Except.ok (computeResult c)
  else Except.error (validate c)

/-! ## Frontend: `SimulatorPage.handleSimulate` (from
`frontend/src/pages/SimulatorPage.jsx`) -/

/-- The component state of `SimulatorPage` relevant to `handleSimulate`:
the `results` state (initially `null`) and the `isSimulating` flag. -/
structure PageState where
  results : Option SimulationResult
  isSimulating : Bool

/-- The outcome of the `api.post("/simulate", config)` call awaited inside
`handleSimulate`: either a response carrying a result, or a thrown /
rejected request. -/
inductive SimOutcome where
  | ok (r : SimulationResult) : SimOutcome
  | err : SimOutcome

/-- The `finally` block of `handleSimulate`: `setIsSimulating(false)` runs
on every exit path, and the thrown-flag (second component) is propagated
unchanged. -/
def finallyReset (p : PageState × Bool) : PageState × Bool :=
  ({ p.1 with isSimulating := false }, p.2)

/-- The handler `handleSimulate` from `frontend/src/pages/SimulatorPage.jsx`:
`setIsSimulating(true)`, then `try { const res = await api.post(...);
setResults(res.data); } finally { setIsSimulating(false); }`.  The
returned `Bool` records whether the rejection propagates to the caller
(the `try` has no `catch`). -/
def handleSimulate (o : SimOutcome) (s : PageState) : PageState × Bool :=
  let s1 := { s with isSimulating := true }
  finallyReset (match o with
    | SimOutcome.ok r => ({ s1 with results := some r }, false)
    | SimOutcome.err => (s1, true))

/-! ## Frontend: `CPUVisualization` speed factors (from
`frontend/src/components/CPUVisualization.jsx`) -/

/-- The shape of the `results` prop as read by `CPUVisualization`: the
component only accesses `performance_index` and `amat_ns`, each of which
may be absent.  Values are rationals (the JS numbers involved). -/
structure VizResults where
  performance_index : Option ℚ
  amat_ns : Option ℚ

/-- Line `const perf = results?.performance_index ?? 1;` of the component. -/
def vizPerf (results : Option VizResults) : ℚ :=
  (results.bind (fun r => r.performance_index)).getD 1

/-- Line `const amat = results?.amat_ns ?? 80;` of the component. -/
def vizAmat (results : Option VizResults) : ℚ :=
  (results.bind (fun r => r.amat_ns)).getD 80

/-- Speed factor `inflowSpeed = Math.max(0.12, Math.min(0.35,
0.20 / Math.max(1.0, amat / 40.0)))` from `CPUVisualization.jsx`. -/
def inflowSpeed (results : Option VizResults) : ℚ :=
  max (12/100) (min (35/100) ((20/100) / max 1 (vizAmat results / 40)))

/-- Speed factor `outflowSpeed = Math.max(0.12, Math.min(0.45,
0.35 / Math.max(0.6, 2.5 - perf * 0.4)))` from `CPUVisualization.jsx`. -/
def outflowSpeed (results : Option VizResults) : ℚ :=
  max (12/100) (min (45/100)
    ((35/100) / max (6/10) (5/2 - vizPerf results * (4/10))))

/-! ## Helper lemmas -/

theorem le_clampR (x lo hi : ℝ) : lo ≤ clampR x lo hi := le_max_left _ _

theorem clampR_le (x lo hi : ℝ) (h : lo ≤ hi) : clampR x lo hi ≤ hi :=
  max_le h (min_le_left _ _)

theorem clampR_mono (lo hi : ℝ) {x y : ℝ} (h : x ≤ y) :
    clampR x lo hi ≤ clampR y lo hi :=
  max_le_max le_rfl (min_le_min le_rfl h)

theorem rangeCheckN_nil {f : String} {lo hi v : ℕ}
    (h : rangeCheckN f lo hi v = []) : lo ≤ v ∧ v ≤ hi := by
  by_cases hc : v < lo ∨ hi < v
  · simp [rangeCheckN, hc] at h
  · push_neg at hc
    omega

theorem rangeCheckQ_nil {f : String} {lo hi v : ℚ}
    (h : rangeCheckQ f lo hi v = []) : lo ≤ v ∧ v ≤ hi := by
  by_cases hc : v < lo ∨ hi < v
  · simp [rangeCheckQ, hc] at h
  · push_neg at hc
    exact ⟨hc.1, hc.2⟩

theorem geometryCheck_nil {c : Config} (h : geometryCheck c = []) :
    1 ≤ cacheSets c := by
  by_cases hc : cacheSets c < 1
  · simp [geometryCheck, hc] at h
  · omega

/-- Unpacking of a successful validation into the field bounds it
guarantees (spec section 4.1). -/
theorem validate_nil_bounds {c : Config} (h : validate c = []) :
    (8 ≤ c.cache_size_kb ∧ c.cache_size_kb ≤ 1024) ∧
    (16 ≤ c.cache_block_size_b ∧ c.cache_block_size_b ≤ 256) ∧
    (1 ≤ c.cache_associativity ∧ c.cache_associativity ≤ 16) ∧
    (5 ≤ c.mem_bandwidth_gbs ∧ c.mem_bandwidth_gbs ≤ 200) ∧
    (30 ≤ c.mem_latency_ns ∧ c.mem_latency_ns ≤ 200) ∧
    (8 ≤ c.reg_count ∧ c.reg_count ≤ 256) ∧
    (1/2 ≤ c.clock_freq_ghz ∧ c.clock_freq_ghz ≤ 6) ∧
    (5 ≤ c.pipeline_depth ∧ c.pipeline_depth ≤ 40) ∧
    (1 ≤ c.issue_width ∧ c.issue_width ≤ 8) ∧
    1 ≤ cacheSets c := by
  simp only [validate, List.append_eq_nil, and_assoc] at h
  obtain ⟨h1, h2, h3, _, h5, h6, h7, _, _, _, h11, h12, h13, _, h15⟩ := h
  exact ⟨rangeCheckN_nil h1, rangeCheckN_nil h2, rangeCheckN_nil h3,
    rangeCheckQ_nil h5, rangeCheckQ_nil h6, rangeCheckN_nil h7,
    rangeCheckQ_nil h11, rangeCheckN_nil h12, rangeCheckN_nil h13,
    geometryCheck_nil h15⟩

theorem cacheHitRate_ge (c : Config) : (0.10 : ℝ) ≤ cacheHitRate c :=
  le_clampR _ _ _

theorem cacheHitRate_le (c : Config) : cacheHitRate c ≤ (0.995 : ℝ) :=
  clampR_le _ _ _ (by norm_num)

theorem cacheHitRate_pos (c : Config) : 0 < cacheHitRate c :=
  lt_of_lt_of_le (by norm_num) (cacheHitRate_ge c)

theorem cacheMissRate_pos (c : Config) : 0 < cacheMissRate c := by
  have := cacheHitRate_le c
  unfold cacheMissRate
  linarith

theorem cacheMissRate_nonneg (c : Config) : 0 ≤ cacheMissRate c :=
  le_of_lt (cacheMissRate_pos c)

theorem cacheHitTime_pos (c : Config) (h : 1 ≤ c.cache_size_kb) :
    0 < cacheHitTime c := by
  unfold cacheHitTime
  have hlog : 0 ≤ Real.logb 2 (c.cache_size_kb : ℝ) :=
    Real.logb_nonneg (by norm_num) (by exact_mod_cast h)
  have hassoc : (0 : ℝ) ≤ (c.cache_associativity : ℝ) := Nat.cast_nonneg _
  nlinarith

theorem effectiveLatency_nonneg (c : Config) (h : 0 ≤ c.mem_latency_ns) :
    0 ≤ effectiveLatency c :=
  le_trans (mul_nonneg h (by norm_num)) (le_max_left _ _)

theorem effectiveLatency_pos (c : Config) (h : 0 < c.mem_latency_ns) :
    0 < effectiveLatency c :=
  lt_of_lt_of_le (mul_pos h (by norm_num)) (le_max_left _ _)

theorem branchTotalBranches_eq : branchTotalBranches = 200000 := by
  norm_num [branchTotalBranches, workloadN, branchDensity, round_eq]

theorem branchMispredictCount_eq (c : Config) :
    branchMispredictCount c =
      (match c.branch_predictor with
        | BranchPredictor.static => 70000
        | BranchPredictor.bimodal => 24000
        | BranchPredictor.tournament => 12000) := by
  cases hp : c.branch_predictor <;>
    norm_num [branchMispredictCount, branchTotalBranches_eq, mispredictRate,
      hp, round_eq]

theorem branchMispredictCount_pos (c : Config) :
    0 < branchMispredictCount c := by
  rw [branchMispredictCount_eq]
  cases c.branch_predictor <;> norm_num

theorem mispredictPenalty_nonneg (c : Config) : 0 ≤ mispredictPenalty c := by
  unfold mispredictPenalty
  positivity

theorem branchStallCycles_nonneg (c : Config) : 0 ≤ branchStallCycles c :=
  mul_nonneg (by exact_mod_cast le_of_lt (branchMispredictCount_pos c))
    (mispredictPenalty_nonneg c)

theorem ipcDenom_pos (c : Config) :
    0 < 1 + (branchStallCycles c : ℝ) / (workloadN : ℝ) := by
  have hs : (0 : ℝ) ≤ (branchStallCycles c : ℝ) := by
    exact_mod_cast branchStallCycles_nonneg c
  have hn : (0 : ℝ) < (workloadN : ℝ) := by norm_num [workloadN]
  positivity

theorem one_le_ipcDenom (c : Config) :
    1 ≤ 1 + (branchStallCycles c : ℝ) / (workloadN : ℝ) := by
  have hs : (0 : ℝ) ≤ (branchStallCycles c : ℝ) := by
    exact_mod_cast branchStallCycles_nonneg c
  have hn : (0 : ℝ) < (workloadN : ℝ) := by norm_num [workloadN]
  have : 0 ≤ (branchStallCycles c : ℝ) / (workloadN : ℝ) := by positivity
  linarith

theorem ipcBefore_ge (c : Config) : (0.1 : ℝ) ≤ ipcBefore c :=
  le_clampR _ _ _

theorem ipcBefore_pos (c : Config) : 0 < ipcBefore c :=
  lt_of_lt_of_le (by norm_num) (ipcBefore_ge c)

theorem ipcBefore_le_issueWidth (c : Config) (h : 1 ≤ c.issue_width) :
    ipcBefore c ≤ (c.issue_width : ℝ) := by
  have h1 : (1 : ℝ) ≤ (c.issue_width : ℝ) := by exact_mod_cast h
  unfold ipcBefore clampR
  exact max_le (by norm_num; linarith) (min_le_left _ _)

theorem ipcAfter_pos (c : Config) : 0 < ipcAfter c :=
  div_pos (ipcBefore_pos c) (ipcDenom_pos c)

theorem ipcAfter_le_ipcBefore (c : Config) : ipcAfter c ≤ ipcBefore c := by
  unfold ipcAfter
  exact div_le_self (le_of_lt (ipcBefore_pos c)) (one_le_ipcDenom c)

/-- The baseline configuration passes validation. -/
theorem validate_baseline : validate baselineConfig = [] := by
  norm_num [validate, rangeCheckN, rangeCheckQ, geometryCheck, cacheSets,
    baselineConfig]

/-! ## Claim theorems -/

/-- Claim C1: evaluating the engine on the baseline/default configuration
yields `performance_index = 1` exactly (hence ≈ 1.0), and every field of
the resulting `SimulationResult` is positive (finiteness is automatic in
the real-number model: every field is a real number, with no `NaN` or
infinity representable). -/
theorem claim_C1_baseline_scenario :
    (computeResult baselineConfig).performance_index = 1 ∧
    0 < (computeResult baselineConfig).cache_hit_rate ∧
    0 < (computeResult baselineConfig).cache_miss_rate ∧
    0 < (computeResult baselineConfig).cache_hit_time_ns ∧
    0 < (computeResult baselineConfig).amat_ns ∧
    0 < (computeResult baselineConfig).branch_mispredict_rate ∧
    0 < (computeResult baselineConfig).performance_index ∧
    0 < (computeResult baselineConfig).power_index ∧
    0 < (computeResult baselineConfig).efficiency_index ∧
    0 < (computeResult baselineConfig).ipc_index ∧
    0 < (computeResult baselineConfig).total_energy_consumption ∧
    0 < (computeResult baselineConfig).average_power_consumption ∧
    0 < (computeResult baselineConfig).energy_per_access ∧
    0 < (computeResult baselineConfig).power_density ∧
    0 < (computeResult baselineConfig).branch_total_branches ∧
    0 < (computeResult baselineConfig).branch_mispredict_count ∧
    0 < (computeResult baselineConfig).branch_stall_cycles ∧
    0 < (computeResult baselineConfig).branch_ipc_before ∧
    0 < (computeResult baselineConfig).branch_ipc_after ∧
    0 < (computeResult baselineConfig).branch_ipc_loss_percent ∧
    0 < (computeResult baselineConfig).branch_predictor_efficiency := by
  have hipcb : 0 < ipcBefore baselineConfig := ipcBefore_pos _
  have hipca : 0 < ipcAfter baselineConfig := ipcAfter_pos _
  have hclock : (baselineConfig.clock_freq_ghz : ℝ) = 3 := by
    norm_num [baselineConfig]
  have hperf : performanceIndex baselineConfig = 1 := by
    unfold performanceIndex baselineIpcAfter baselineClock
    rw [hclock]
    push_cast
    rw [div_self (by positivity)]
  have hpowQ : 0 < powerIndex baselineConfig := by
    norm_num [powerIndex, baselineConfig]
  have hpow : (0 : ℝ) < (powerIndex baselineConfig : ℝ) := by
    exact_mod_cast hpowQ
  have havgQ : 0 < averagePower baselineConfig := by
    norm_num [averagePower, basePowerW, kPower, powerIndex, baselineConfig]
  have hexec : 0 < executionTime baselineConfig := by
    unfold executionTime
    have hc3 : (0 : ℝ) < (baselineConfig.clock_freq_ghz : ℝ) := by
      rw [hclock]
      norm_num
    have hw : (0 : ℝ) < (workloadN : ℝ) := by norm_num [workloadN]
    positivity
  have henergy : 0 < totalEnergy baselineConfig :=
    mul_pos (by exact_mod_cast havgQ) hexec
  have hstallQ : 0 < branchStallCycles baselineConfig := by
    apply mul_pos
    · exact_mod_cast branchMispredictCount_pos _
    · norm_num [mispredictPenalty, baselineConfig]
  have hdenom : 1 < 1 + (branchStallCycles baselineConfig : ℝ)
      / (workloadN : ℝ) := by
    have hsR : (0 : ℝ) < (branchStallCycles baselineConfig : ℝ) := by
      exact_mod_cast hstallQ
    have hw : (0 : ℝ) < (workloadN : ℝ) := by norm_num [workloadN]
    have := div_pos hsR hw
    linarith
  have hlt : ipcAfter baselineConfig < ipcBefore baselineConfig := by
    unfold ipcAfter
    exact div_lt_self hipcb hdenom
  have hloss : 0 < ipcLossPercent baselineConfig := by
    unfold ipcLossPercent
    exact mul_pos (div_pos (sub_pos.mpr hlt) hipcb) (by norm_num)
  have hhitt : 0 < cacheHitTime baselineConfig :=
    cacheHitTime_pos _ (by decide)
  have hamat : 0 < amat baselineConfig := by
    unfold amat
    have helq : (0 : ℚ) ≤ effectiveLatency baselineConfig :=
      effectiveLatency_nonneg _ (by norm_num [baselineConfig])
    have hel : (0 : ℝ) ≤ (effectiveLatency baselineConfig : ℝ) := by
      exact_mod_cast helq
    have h2 : 0 ≤ cacheMissRate baselineConfig
        * (effectiveLatency baselineConfig : ℝ) :=
      mul_nonneg (cacheMissRate_nonneg _) hel
    linarith
  have heff : 0 < efficiencyIndex baselineConfig := by
    unfold efficiencyIndex
    rw [hperf]
    exact div_pos one_pos hpow
  have hepa : 0 < energyPerAccess baselineConfig := by
    unfold energyPerAccess
    apply div_pos henergy
    have hq : (0 : ℚ) < totalMemoryAccesses := by
      norm_num [totalMemoryAccesses, workloadN, accessDensity]
    exact_mod_cast hq
  have hpd : (0 : ℚ) < powerDensity baselineConfig := by
    unfold powerDensity dieAreaCm2
    rw [div_one]
    exact havgQ
  refine ⟨hperf, cacheHitRate_pos _, cacheMissRate_pos _, hhitt, hamat, ?_,
    ?_, hpow, heff, hipca, henergy, ?_, hepa, ?_, ?_, ?_, ?_, hipcb, hipca,
    hloss, ?_⟩
  · show (0 : ℝ) <
      ((mispredictRate baselineConfig.branch_predictor : ℚ) : ℝ)
    norm_num [baselineConfig, mispredictRate]
  · show 0 < performanceIndex baselineConfig
    rw [hperf]
    norm_num
  · show (0 : ℝ) < ((averagePower baselineConfig : ℚ) : ℝ)
    exact_mod_cast havgQ
  · show (0 : ℝ) < ((powerDensity baselineConfig : ℚ) : ℝ)
    exact_mod_cast hpd
  · show (0 : ℝ) < ((branchTotalBranches : ℤ) : ℝ)
    rw [branchTotalBranches_eq]
    norm_num
  · show (0 : ℝ) < ((branchMispredictCount baselineConfig : ℤ) : ℝ)
    exact_mod_cast branchMispredictCount_pos _
  · show (0 : ℝ) < ((branchStallCycles baselineConfig : ℚ) : ℝ)
    exact_mod_cast hstallQ
  · show (0 : ℝ) <
      (((1 : ℚ) - mispredictRate baselineConfig.branch_predictor : ℚ) : ℝ)
    norm_num [baselineConfig, mispredictRate]

/-- Claim C2: `SimulationEngine.run` is deterministic — two calls with
configurations that agree on every field return identical
`SimulationResult` values (the engine is a pure function of its input
and the immutable baseline constants). -/
theorem claim_C2_run_deterministic (c1 c2 : Config)
    (h1 : c1.cache_size_kb = c2.cache_size_kb)
    (h2 : c1.cache_block_size_b = c2.cache_block_size_b)
    (h3 : c1.cache_associativity = c2.cache_associativity)
    (h4 : c1.mem_size_gb = c2.mem_size_gb)
    (h5 : c1.mem_bandwidth_gbs = c2.mem_bandwidth_gbs)
    (h6 : c1.mem_latency_ns = c2.mem_latency_ns)
    (h7 : c1.reg_count = c2.reg_count)
    (h8 : c1.reg_width_bits = c2.reg_width_bits)
    (h9 : c1.bus_width_bits = c2.bus_width_bits)
    (h10 : c1.bus_freq_ghz = c2.bus_freq_ghz)
    (h11 : c1.clock_freq_ghz = c2.clock_freq_ghz)
    (h12 : c1.pipeline_depth = c2.pipeline_depth)
    (h13 : c1.issue_width = c2.issue_width)
    (h14 : c1.alu_width_bits = c2.alu_width_bits)
    (h15 : c1.branch_predictor = c2.branch_predictor) :
    run c1 = run c2 := by
  have heq : c1 = c2 := by
    cases c1
    cases c2
    simp_all
  rw [heq]

/-- Witness for C2: the theorem applied to two identical copies of the
baseline configuration. -/
theorem claim_C2_witness : run baselineConfig = run baselineConfig :=
  claim_C2_run_deterministic baselineConfig baselineConfig rfl rfl rfl rfl
    rfl rfl rfl rfl rfl rfl rfl rfl rfl rfl rfl

/-- Claim C3: for every valid configuration, the result satisfies
`amat_ns ≥ cache_hit_time_ns`, where `amat_ns = cache_hit_time_ns +
miss_rate * effective_latency_ns`. -/
theorem claim_C3_amat_ge_hit_time (c : Config) (hv : validate c = []) :
    (computeResult c).amat_ns = (computeResult c).cache_hit_time_ns
        + cacheMissRate c * (effectiveLatency c : ℝ) ∧
    (computeResult c).amat_ns ≥ (computeResult c).cache_hit_time_ns := by
  obtain ⟨_, _, _, _, hlat, _⟩ := validate_nil_bounds hv
  refine ⟨rfl, ?_⟩
  show cacheHitTime c ≤ amat c
  have h1 : 0 ≤ cacheMissRate c := cacheMissRate_nonneg c
  have h2 : (0 : ℝ) ≤ (effectiveLatency c : ℝ) := by
    exact_mod_cast effectiveLatency_nonneg c (by linarith [hlat.1])
  have h3 : 0 ≤ cacheMissRate c * (effectiveLatency c : ℝ) :=
    mul_nonneg h1 h2
  unfold amat
  linarith

/-- Witness for C3: the bound at the baseline configuration. -/
theorem claim_C3_witness :
    (computeResult baselineConfig).amat_ns =
        (computeResult baselineConfig).cache_hit_time_ns
          + cacheMissRate baselineConfig
            * (effectiveLatency baselineConfig : ℝ) ∧
    (computeResult baselineConfig).amat_ns ≥
      (computeResult baselineConfig).cache_hit_time_ns :=
  claim_C3_amat_ge_hit_time baselineConfig validate_baseline

/-- Claim C4: for every valid configuration,
`0 < ipc_after ≤ ipc_before ≤ issue_width`, with `ipc_before =
clamp(issue_width * reg_factor, 0.1, issue_width)` and `ipc_after =
ipc_before / (1 + branch_stall_cycles / N)`. -/
theorem claim_C4_ipc_bounds (c : Config) (hv : validate c = []) :
    (computeResult c).branch_ipc_before =
        clampR ((c.issue_width : ℝ) * regFactor c) 0.1 (c.issue_width : ℝ) ∧
    (computeResult c).branch_ipc_after = (computeResult c).branch_ipc_before
        / (1 + (branchStallCycles c : ℝ) / (workloadN : ℝ)) ∧
    0 < (computeResult c).branch_ipc_after ∧
    (computeResult c).branch_ipc_after ≤ (computeResult c).branch_ipc_before ∧
    (computeResult c).branch_ipc_before ≤ (c.issue_width : ℝ) := by
  obtain ⟨_, _, _, _, _, _, _, _, hiw, _⟩ := validate_nil_bounds hv
  exact ⟨rfl, rfl, ipcAfter_pos c, ipcAfter_le_ipcBefore c,
    ipcBefore_le_issueWidth c hiw.1⟩

/-- Witness for C4: the IPC bounds at the baseline configuration. -/
theorem claim_C4_witness :
    (computeResult baselineConfig).branch_ipc_before =
        clampR ((baselineConfig.issue_width : ℝ) * regFactor baselineConfig)
          0.1 (baselineConfig.issue_width : ℝ) ∧
    (computeResult baselineConfig).branch_ipc_after =
        (computeResult baselineConfig).branch_ipc_before
          / (1 + (branchStallCycles baselineConfig : ℝ) / (workloadN : ℝ)) ∧
    0 < (computeResult baselineConfig).branch_ipc_after ∧
    (computeResult baselineConfig).branch_ipc_after ≤
        (computeResult baselineConfig).branch_ipc_before ∧
    (computeResult baselineConfig).branch_ipc_before ≤
      (baselineConfig.issue_width : ℝ) :=
  claim_C4_ipc_bounds baselineConfig validate_baseline

/-- Claim C5: the reported `efficiency_index` equals
`performance_index / power_index` (here exactly, hence within any
floating tolerance). -/
theorem claim_C5_efficiency_composition (c : Config) :
    (computeResult c).efficiency_index =
      (computeResult c).performance_index / (computeResult c).power_index :=
  rfl

/-- Claim C6: the base branch mispredict rate depends only on the
predictor variant, with `static→0.35`, `bimodal→0.12`, `tournament→0.06`;
hence on configurations identical except for `branch_predictor`, the
reported mispredict rate is strictly ordered
`static > bimodal > tournament`. -/
theorem claim_C6_predictor_ordering (c : Config) :
    (computeResult { c with branch_predictor := BranchPredictor.static
      }).branch_mispredict_rate = 0.35 ∧
    (computeResult { c with branch_predictor := BranchPredictor.bimodal
      }).branch_mispredict_rate = 0.12 ∧
    (computeResult { c with branch_predictor := BranchPredictor.tournament
      }).branch_mispredict_rate = 0.06 ∧
    (computeResult { c with branch_predictor := BranchPredictor.static
        }).branch_mispredict_rate >
      (computeResult { c with branch_predictor := BranchPredictor.bimodal
        }).branch_mispredict_rate ∧
    (computeResult { c with branch_predictor := BranchPredictor.bimodal
        }).branch_mispredict_rate >
      (computeResult { c with branch_predictor := BranchPredictor.tournament
        }).branch_mispredict_rate := by
  show ((7/20 : ℚ) : ℝ) = 0.35 ∧ ((3/25 : ℚ) : ℝ) = 0.12 ∧
    ((3/50 : ℚ) : ℝ) = 0.06 ∧ ((7/20 : ℚ) : ℝ) > ((3/25 : ℚ) : ℝ) ∧
    ((3/25 : ℚ) : ℝ) > ((3/50 : ℚ) : ℝ)
  norm_num

/-- Claim C7: with all other fields fixed, `cache_hit_rate` is
non-decreasing in `cache_size_kb`, non-decreasing in
`cache_associativity` (and flat once the associativity is at least 8),
and increasing the associativity also never decreases
`cache_hit_time_ns`. -/
theorem claim_C7_cache_monotonicity (c : Config) (s2 a2 : ℕ)
    (hs1 : 1 ≤ c.cache_size_kb) (hs : c.cache_size_kb ≤ s2)
    (ha : c.cache_associativity ≤ a2) :
    cacheHitRate c ≤ cacheHitRate { c with cache_size_kb := s2 } ∧
    cacheHitRate c ≤ cacheHitRate { c with cache_associativity := a2 } ∧
    (8 ≤ c.cache_associativity →
      cacheHitRate { c with cache_associativity := a2 } = cacheHitRate c) ∧
    cacheHitTime c ≤ cacheHitTime { c with cache_associativity := a2 } := by
  have hs0 : (0 : ℝ) < (c.cache_size_kb : ℝ) := by
    exact_mod_cast Nat.lt_of_lt_of_le Nat.zero_lt_one hs1
  have hlog : Real.log (c.cache_size_kb : ℝ) ≤ Real.log (s2 : ℝ) :=
    Real.log_le_log hs0 (by exact_mod_cast hs)
  have haR : (c.cache_associativity : ℝ) ≤ (a2 : ℝ) := by exact_mod_cast ha
  refine ⟨?_, ?_, ?_, ?_⟩
  · unfold cacheHitRate
    dsimp only
    apply clampR_mono
    linarith
  · unfold cacheHitRate
    dsimp only
    apply clampR_mono
    have hmin : min (c.cache_associativity : ℝ) 8 ≤ min (a2 : ℝ) 8 :=
      min_le_min haR le_rfl
    linarith
  · intro h8
    have h8a : (8 : ℝ) ≤ (c.cache_associativity : ℝ) := by exact_mod_cast h8
    have h8b : (8 : ℝ) ≤ (a2 : ℝ) := le_trans h8a haR
    unfold cacheHitRate
    dsimp only
    rw [min_eq_right h8a, min_eq_right h8b]
  · unfold cacheHitTime
    dsimp only
    linarith

/-- Witness for C7: baseline configuration, growing the cache from 32 KB
to 64 KB and the associativity from 4 to 8. -/
theorem claim_C7_witness :
    cacheHitRate baselineConfig ≤
        cacheHitRate { baselineConfig with cache_size_kb := 64 } ∧
    cacheHitRate baselineConfig ≤
        cacheHitRate { baselineConfig with cache_associativity := 8 } ∧
    (8 ≤ baselineConfig.cache_associativity →
      cacheHitRate { baselineConfig with cache_associativity := 8 } =
        cacheHitRate baselineConfig) ∧
    cacheHitTime baselineConfig ≤
      cacheHitTime { baselineConfig with cache_associativity := 8 } :=
  claim_C7_cache_monotonicity baselineConfig 64 8 (by decide) (by decide)
    (by decide)

/-- Claim C8: a raw configuration whose cache geometry yields fewer than
one set (`cache_size_kb*1024 < cache_block_size_b*cache_associativity`)
is rejected: `run` returns the validation errors, among them
`InconsistentGeometry` naming the offending field, and produces no
`SimulationResult`. -/
theorem claim_C8_geometry_rejected (c : Config)
    (h : c.cache_size_kb * 1024 < c.cache_block_size_b * c.cache_associativity) :
    run c = Except.error (validate c) ∧
    ValidationError.InconsistentGeometry "cache_associativity"
        "fewer than one cache set" ∈ validate c ∧
    ∀ r : SimulationResult, run c ≠ Except.ok r := by
  have hsets : cacheSets c = 0 := by
    unfold cacheSets
    exact Nat.div_eq_of_lt h
  have hgc : geometryCheck c = [ValidationError.InconsistentGeometry
      "cache_associativity" "fewer than one cache set"] := by
    simp [geometryCheck, hsets]
  have hmem : ValidationError.InconsistentGeometry "cache_associativity"
      "fewer than one cache set" ∈ validate c := by
    unfold validate
    rw [hgc]
    simp
  have hne : validate c ≠ [] := by
    intro hnil
    rw [hnil] at hmem
    simp at hmem
  have hrun : run c = Except.error (validate c) := by
    unfold run
    rw [if_neg hne]
  refine ⟨hrun, hmem, ?_⟩
  intro r hr
  rw [hrun] at hr
  exact Except.noConfusion hr

/-- Witness for C8: a raw configuration with 1 KB cache, 64-byte blocks
and 32-way associativity (1024 < 2048 bytes per set) is rejected with an
`InconsistentGeometry` error. -/
theorem claim_C8_witness :
    run badGeometryConfig = Except.error (validate badGeometryConfig) ∧
    ValidationError.InconsistentGeometry "cache_associativity"
        "fewer than one cache set" ∈ validate badGeometryConfig ∧
    ∀ r : SimulationResult, run badGeometryConfig ≠ Except.ok r :=
  claim_C8_geometry_rejected badGeometryConfig (by decide)

/-- Claim C9: for every outcome of the `POST /simulate` request issued by
`SimulatorPage.handleSimulate` — success or a thrown/rejected request —
the `isSimulating` flag is `false` after the handler completes (the reset
sits in a `finally` block), and on success the results are stored. -/
theorem claim_C9_isSimulating_reset (o : SimOutcome) (s : PageState) :
    (handleSimulate o s).1.isSimulating = false := by
  cases o <;> rfl

/-- Claim C10: for every `results` input to `CPUVisualization` — `null`,
or an object missing `performance_index` or `amat_ns` — the animation
speed factors satisfy `inflowSpeed ∈ [0.12, 0.35]` and `outflowSpeed ∈
[0.12, 0.45]`, and both divisors are strictly positive (no division by
zero). -/
theorem claim_C10_speed_bounds (results : Option VizResults) :
    (12/100 ≤ inflowSpeed results ∧ inflowSpeed results ≤ 35/100) ∧
    (12/100 ≤ outflowSpeed results ∧ outflowSpeed results ≤ 45/100) ∧
    0 < max 1 (vizAmat results / 40) ∧
    0 < max (6/10) (5/2 - vizPerf results * (4/10)) := by
  refine ⟨⟨le_max_left _ _, max_le (by norm_num) (min_le_left _ _)⟩,
    ⟨le_max_left _ _, max_le (by norm_num) (min_le_left _ _)⟩,
    lt_of_lt_of_le one_pos (le_max_left _ _),
    lt_of_lt_of_le (by norm_num) (le_max_left _ _)⟩

end CPUSim
